import Mathlib

/-!
Shallow embedding of `trl/models/modeling_base.py` (class `PreTrainedModelWrapper`)
and proofs about its behaviour.

Modelling choices:
* A Python keyword-argument dictionary is an ordered association list
  `List (String × V)` (Python dicts preserve insertion order); values are an
  arbitrary type `V`.
* The externally supplied pretrained model is an arbitrary type `M`; for the
  delegation methods it is instantiated with a record of method fields.
* `transformers_parent_class.from_pretrained` is an external collaborator and
  is passed in as a total function parameter `loader`.
* The Python parameter `pretrained_model_name_or_path` can be a string, a
  `PreTrainedModel` instance, or any other Python value; the last case is
  represented by the constructor `other` carrying the value's type name
  (which is all the code inspects of it).
-/

namespace ModelingBase

/-- A Python keyword-argument dictionary: an ordered association list. -/
abbrev Kwargs (V : Type) := List (String × V)

/-- A Python `ValueError` raised by the code under study. -/
inductive PyError where
  | valueError (msg : String)
  deriving Repr, DecidableEq

/-- The possible runtime values of `pretrained_model_name_or_path`:
a string, a `transformers.PreTrainedModel` instance, or any other Python
value (represented by its type name, the only thing the code uses of it). -/
inductive NameOrPath (M : Type) where
  | str (s : String)
  | model (m : M)
  | other (typeName : String)
  deriving Repr, DecidableEq

/-- The wrapper object: its only instance state is the held reference
`self.pretrained_model` set by `__init__`. -/
structure PreTrainedModelWrapper (M : Type) where
  pretrained_model : M
  deriving Repr, DecidableEq

/-- The interface of the wrapped `transformers.PreTrainedModel` object used by
the wrapper's delegation methods: each method takes positional arguments
(`List A`) and keyword arguments (`Kwargs V`) and returns some result `R`. -/
structure PretrainedModel (A V R : Type) where
  push_to_hub : List A → Kwargs V → R
  save_pretrained : List A → Kwargs V → R
  state_dict : List A → Kwargs V → R

namespace PreTrainedModelWrapper

/-- The class-level allow-list `supported_args = ("summary_dropout_prob",)`.
It is a Lean constant: no operation of the embedding can mutate it, matching
the code, which never assigns to it. -/
def supported_args : List String := ["summary_dropout_prob"]

/-- Embeds `_split_kwargs`: iterate over the items of `kwargs` in order and
place each `(key, value)` pair in the first (supported) bucket when
`key in cls.supported_args`, otherwise in the second (unsupported) bucket.
Parameterised by the class-level `supported` list (`cls.supported_args`). -/
def _split_kwargs {V : Type} (supported : List String) (kwargs : Kwargs V) :
    Kwargs V × Kwargs V :=
  kwargs.partition (fun p => supported.contains p.1)

/-- Embeds `__init__(self, pretrained_model=None, **kwargs)`: it stores
`pretrained_model` and discards `kwargs` entirely. -/
def init {M V : Type} (pretrained_model : M) (kwargs : Kwargs V) :
    PreTrainedModelWrapper M :=
  { pretrained_model := pretrained_model }

/-- The tail of `from_pretrained` once the two kwarg buckets
`(trl_model_args, pretrained_kwargs)` have been computed: dispatch on the
runtime type of `pretrained_model_name_or_path`, loading via the parent
class for a string, reusing the given instance for a `PreTrainedModel`, and
raising `ValueError` otherwise; finally construct the wrapper with
`cls(pretrained_model, **trl_model_args)`. -/
def fromPretrainedGiven {M A V : Type}
    (loader : String → List A → Kwargs V → M)
    (x : NameOrPath M) (model_args : List A)
    (buckets : Kwargs V × Kwargs V) :
    Except PyError (PreTrainedModelWrapper M) :=
  match x with
  | .str s => .ok (init (loader s model_args buckets.2) buckets.1)
  | .model m => .ok (init m buckets.1)
  | .other typeName =>
      .error (.valueError
        ("pretrained_model_name_or_path should be a string or a PreTrainedModel, but is "
          ++ typeName))

/-- The body of `from_pretrained` including the `if kwargs is not None`
test: the `None` case (both buckets empty) is modelled by `Option.none`. -/
def fromPretrainedAux {M A V : Type}
    (loader : String → List A → Kwargs V → M)
    (x : NameOrPath M) (model_args : List A)
    (okwargs : Option (Kwargs V)) :
    Except PyError (PreTrainedModelWrapper M) :=
  match okwargs with
  | some kwargs =>
      fromPretrainedGiven loader x model_args (_split_kwargs supported_args kwargs)
  | none => fromPretrainedGiven loader x model_args ([], [])

/-- Embeds `from_pretrained(cls, pretrained_model_name_or_path, *model_args,
**kwargs)`: by Python semantics the `**kwargs` parameter is always bound to a
dictionary, never `None`, so the body always receives `some kwargs`. -/
def from_pretrained {M A V : Type}
    (loader : String → List A → Kwargs V → M)
    (x : NameOrPath M) (model_args : List A) (kwargs : Kwargs V) :
    Except PyError (PreTrainedModelWrapper M) :=
  fromPretrainedAux loader x model_args (some kwargs)

/-- Embeds `push_to_hub`: pure delegation to the wrapped object. -/
def push_to_hub {A V R : Type}
    (self : PreTrainedModelWrapper (PretrainedModel A V R))
    (args : List A) (kwargs : Kwargs V) : R :=
  self.pretrained_model.push_to_hub args kwargs

/-- Embeds `save_pretrained`: pure delegation to the wrapped object. -/
def save_pretrained {A V R : Type}
    (self : PreTrainedModelWrapper (PretrainedModel A V R))
    (args : List A) (kwargs : Kwargs V) : R :=
  self.pretrained_model.save_pretrained args kwargs

/-- Embeds `state_dict`: pure delegation to the wrapped object. -/
def state_dict {A V R : Type}
    (self : PreTrainedModelWrapper (PretrainedModel A V R))
    (args : List A) (kwargs : Kwargs V) : R :=
  self.pretrained_model.state_dict args kwargs

/-- The names of the wrapper methods defined in the class body that forward to
the same-named method of the wrapped `self.pretrained_model` object (read off
the source: `push_to_hub`, `save_pretrained`, `state_dict`). -/
def delegated_methods : List String :=
  ["push_to_hub", "save_pretrained", "state_dict"]

end PreTrainedModelWrapper

/-! ## Helper lemmas about association-list lookups and filters -/

open PreTrainedModelWrapper

theorem split_kwargs_eq_filter {V : Type} (supported : List String)
    (kwargs : Kwargs V) :
    _split_kwargs supported kwargs =
      (kwargs.filter (fun p => supported.contains p.1),
       kwargs.filter (fun p => !(supported.contains p.1))) :=
  List.partition_eq_filter_filter _ _

theorem lookup_append_or {V : Type} (k : String) (l1 l2 : Kwargs V) :
    List.lookup k (l1 ++ l2) = (List.lookup k l1).or (List.lookup k l2) := by
  induction l1 with
  | nil => simp [List.lookup]
  | cons a t ih => by_cases h : k == a.1 <;> simp [List.lookup, h, ih]

theorem lookup_filter_key {V : Type} (q : String → Bool) (k : String)
    (l : Kwargs V) :
    List.lookup k (l.filter (fun p => q p.1)) =
      if q k then List.lookup k l else none := by
  induction l with
  | nil => by_cases h : q k <;> simp [List.lookup, h]
  | cons a t ih =>
    by_cases hk : k == a.1
    · have hka : k = a.1 := eq_of_beq hk
      by_cases hq : q a.1
      · simp [List.filter, List.lookup, hq, hk, hka]
      · have hqk : q k = false := by rw [hka]; simpa using hq
        simp [List.filter, List.lookup, hq, hqk, ih]
    · by_cases hq : q a.1 <;> simp [List.filter, List.lookup, hq, hk, ih]

theorem keys_filter_contains_false {V : Type} (q : String → Bool) (k : String)
    (l : Kwargs V) (h : q k = false) :
    ((l.filter (fun p => q p.1)).map Prod.fst).contains k = false := by
  induction l with
  | nil => simp
  | cons a t ih =>
    by_cases hq : q a.1
    · have hne : (k == a.1) = false := by
        cases hbeq : (k == a.1)
        · rfl
        · rw [eq_of_beq hbeq] at h; rw [h] at hq; exact hq.symm
      simp [List.filter, hq, List.contains_cons, hne, ih]
      intro _ _
      exact h
    · simp [List.filter, hq, ih]
      intro _ _
      exact h

/-! ## Claim theorems -/

/-- C1: for every kwargs dictionary, `_split_kwargs` places each key of the
input in the first (supported) dictionary iff it is a member of the
class-level `supported_args` allow-list, and in the second (unsupported)
dictionary otherwise, with every key mapped to its original value: a pair
`(k, v)` lands in exactly the bucket selected by membership of `k` in
`supported`, and dictionary lookup in each bucket agrees with the original
lookup on the keys routed there and is empty elsewhere. -/
theorem split_kwargs_partitions_by_supported {V : Type}
    (supported : List String) (kwargs : Kwargs V) (k : String) (v : V) :
    ((k, v) ∈ (_split_kwargs supported kwargs).1 ↔
      (k, v) ∈ kwargs ∧ k ∈ supported)
    ∧ ((k, v) ∈ (_split_kwargs supported kwargs).2 ↔
      (k, v) ∈ kwargs ∧ k ∉ supported)
    ∧ List.lookup k (_split_kwargs supported kwargs).1 =
        (if supported.contains k then List.lookup k kwargs else none)
    ∧ List.lookup k (_split_kwargs supported kwargs).2 =
        (if supported.contains k then none else List.lookup k kwargs) := by
  rw [split_kwargs_eq_filter]
  refine ⟨by simp [List.mem_filter], by simp [List.mem_filter], ?_, ?_⟩
  · exact lookup_filter_key (fun s => supported.contains s) k kwargs
  · rw [lookup_filter_key (fun s => !(supported.contains s)) k kwargs]
    by_cases h : supported.contains k <;> simp [h]

/-- C2: `from_pretrained` raises `ValueError` iff
`pretrained_model_name_or_path` is neither a string nor a `PreTrainedModel`
instance (the `other` case of `NameOrPath`); for a string or a model instance
it returns a wrapper instance. -/
theorem from_pretrained_valueError_iff_other {M A V : Type}
    (loader : String → List A → Kwargs V → M) (x : NameOrPath M)
    (margs : List A) (kwargs : Kwargs V) :
    ((∃ msg, from_pretrained loader x margs kwargs = .error (.valueError msg))
      ↔ (∃ t, x = .other t))
    ∧ ((∃ w, from_pretrained loader x margs kwargs = .ok w)
      ↔ ((∃ s, x = .str s) ∨ (∃ m, x = .model m))) := by
  cases x <;>
    simp [from_pretrained, fromPretrainedAux, fromPretrainedGiven, init]

/-- C3 counterexample: the class does not re-expose four methods of the
wrapped object by pure delegation; the source defines exactly
`push_to_hub`, `save_pretrained` and `state_dict` as delegating methods,
so the count is 3, not 4. -/
theorem delegated_methods_count_is_not_four :
    (PreTrainedModelWrapper.delegated_methods.length = 4) = False :=
  eq_false (by decide)

/-- C3 (amended): the wrapper class re-exposes exactly three methods of the
wrapped model object by pure delegation — `push_to_hub`, `save_pretrained`
and `state_dict` — and each forwards to the same-named method of the wrapped
object. -/
theorem delegates_exactly_three_methods :
    PreTrainedModelWrapper.delegated_methods.length = 3
    ∧ PreTrainedModelWrapper.delegated_methods =
        ["push_to_hub", "save_pretrained", "state_dict"]
    ∧ ∀ (A V R : Type) (w : PreTrainedModelWrapper (PretrainedModel A V R))
        (args : List A) (kwargs : Kwargs V),
        w.push_to_hub args kwargs = w.pretrained_model.push_to_hub args kwargs
        ∧ w.save_pretrained args kwargs =
            w.pretrained_model.save_pretrained args kwargs
        ∧ w.state_dict args kwargs =
            w.pretrained_model.state_dict args kwargs :=
  ⟨rfl, rfl, fun _ _ _ _ _ _ => ⟨rfl, rfl, rfl⟩⟩

/-- C4: each of the wrapper's `push_to_hub`, `save_pretrained` and
`state_dict` methods returns exactly the result of calling the same-named
method of the wrapped `pretrained_model` object on the identical positional
and keyword arguments. -/
theorem delegation_forwards_arguments_unchanged {A V R : Type}
    (w : PreTrainedModelWrapper (PretrainedModel A V R))
    (args : List A) (kwargs : Kwargs V) :
    w.push_to_hub args kwargs = w.pretrained_model.push_to_hub args kwargs
    ∧ w.save_pretrained args kwargs =
        w.pretrained_model.save_pretrained args kwargs
    ∧ w.state_dict args kwargs = w.pretrained_model.state_dict args kwargs :=
  ⟨rfl, rfl, rfl⟩

/-- C5: for a string argument, `from_pretrained` loads the underlying model
by calling the parent class's loader with the string, the positional
`model_args` and exactly the unsupported bucket of the kwargs; every key of
that forwarded bucket is outside `supported_args`. -/
theorem from_pretrained_str_forwards_unsupported_kwargs {M A V : Type}
    (loader : String → List A → Kwargs V → M) (s : String)
    (margs : List A) (kwargs : Kwargs V) :
    from_pretrained loader (.str s) margs kwargs =
      .ok { pretrained_model :=
              loader s margs (_split_kwargs supported_args kwargs).2 }
    ∧ ((_split_kwargs supported_args kwargs).2.all
        (fun p => !(supported_args.contains p.1))) = true := by
  refine ⟨rfl, ?_⟩
  rw [split_kwargs_eq_filter]
  simp only [List.all_eq_true, List.mem_filter]
  intro p hp
  exact hp.2

/-- C6: for a `PreTrainedModel` instance `m` and any kwargs,
`from_pretrained` returns a wrapper whose `pretrained_model` attribute is
exactly the supplied object `m`. -/
theorem from_pretrained_model_holds_reference {M A V : Type}
    (loader : String → List A → Kwargs V → M) (m : M)
    (margs : List A) (kwargs : Kwargs V) :
    from_pretrained loader (.model m) margs kwargs =
      .ok { pretrained_model := m } :=
  rfl

/-- C7: the allow-list is the fixed constant `("summary_dropout_prob",)`
(no operation of the embedding can mutate a Lean constant, matching the code,
which never writes to it), and under it a pair is placed in the supported
bucket iff its key equals `"summary_dropout_prob"`. -/
theorem supported_args_is_fixed_singleton :
    supported_args = ["summary_dropout_prob"]
    ∧ ∀ (V : Type) (kwargs : Kwargs V) (k : String) (v : V),
        ((k, v) ∈ (_split_kwargs supported_args kwargs).1 ↔
          (k, v) ∈ kwargs ∧ k = "summary_dropout_prob") := by
  refine ⟨rfl, ?_⟩
  intro V kwargs k v
  rw [split_kwargs_eq_filter]
  simp [List.mem_filter, supported_args]

/-- C8: the two dictionaries returned by `_split_kwargs` have disjoint key
sets (no key is contained in both), and merging them back (first bucket
before second) yields a dictionary whose lookup agrees with the original on
every key: splitting loses and duplicates nothing. -/
theorem split_kwargs_disjoint_and_lossless {V : Type}
    (supported : List String) (kwargs : Kwargs V) (k : String) :
    ((((_split_kwargs supported kwargs).1.map Prod.fst).contains k)
      && (((_split_kwargs supported kwargs).2.map Prod.fst).contains k))
      = false
    ∧ List.lookup k
        ((_split_kwargs supported kwargs).1 ++ (_split_kwargs supported kwargs).2)
      = List.lookup k kwargs := by
  rw [split_kwargs_eq_filter]
  constructor
  · by_cases h : k ∈ supported
    · have hc : supported.contains k = true := by simpa using h
      rw [keys_filter_contains_false (fun s => !(supported.contains s)) k kwargs
        (by simp [h])]
      exact Bool.and_false _
    · have hc : supported.contains k = false := by simpa using h
      rw [keys_filter_contains_false (fun s => supported.contains s) k kwargs hc]
      exact Bool.false_and _
  · rw [lookup_append_or,
      lookup_filter_key (fun s => supported.contains s) k kwargs,
      lookup_filter_key (fun s => !(supported.contains s)) k kwargs]
    by_cases h : k ∈ supported <;> simp [h]

/-- C9: the supported (trl-specific) kwargs have no effect on the constructed
wrapper: `__init__` discards its `**kwargs`, so `from_pretrained` returns the
same wrapper whether the supported keys are present or omitted entirely. -/
theorem supported_kwargs_have_no_effect {M A V : Type}
    (loader : String → List A → Kwargs V → M) (x : NameOrPath M)
    (margs : List A) (kwargs : Kwargs V) :
    from_pretrained loader x margs kwargs =
      from_pretrained loader x margs
        (kwargs.filter (fun p => !(supported_args.contains p.1)))
    ∧ ∀ (m : M) (kw : Kwargs V), init m kw = { pretrained_model := m } := by
  refine ⟨?_, fun _ _ => rfl⟩
  have hfilter :
      kwargs.filter (fun p => !(supported_args.contains p.1)) =
        (kwargs.filter (fun p => !(supported_args.contains p.1))).filter
          (fun p => !(supported_args.contains p.1)) := by
    rw [List.filter_filter]
    simp [Bool.and_self]
  cases x <;>
    simp [from_pretrained, fromPretrainedAux, fromPretrainedGiven, init,
      split_kwargs_eq_filter, ← hfilter]

/-- C10: the `kwargs is None` branch of `from_pretrained` is unreachable:
the `**kwargs` parameter is always bound to a dictionary, so the entry point
always passes `some kwargs` to the body, and the body then computes its
buckets by invoking `_split_kwargs` on every call. -/
theorem kwargs_none_branch_unreachable {M A V : Type}
    (loader : String → List A → Kwargs V → M) (x : NameOrPath M)
    (margs : List A) (kwargs : Kwargs V) :
    from_pretrained loader x margs kwargs =
      fromPretrainedAux loader x margs (some kwargs)
    ∧ fromPretrainedAux loader x margs (some kwargs) =
        fromPretrainedGiven loader x margs (_split_kwargs supported_args kwargs)
    ∧ (some kwargs).isSome = true :=
  ⟨rfl, rfl, rfl⟩

end ModelingBase
